import Mathlib

/-!
Shallow embedding of src/app.py (YTeditor): a linear movie-trailer pipeline
driven from a simple UI.  External effects (network, filesystem, media
libraries, the generative service) are modelled by explicit oracles; the
control flow, path computations and string manipulations are translated
from the source.  UI messages emitted inside helper functions are not
traced; the per-item loop messages are.
-/

/-- Python exceptions distinguished by the model. -/
inductive PyExn where
  | nameError (n : String)
  | attributeError (attr : String)
  | libError (msg : String)
  | apiError (msg : String)
deriving DecidableEq

/-- Characters of the last slash-separated path component
(os.path.basename on a POSIX path). -/
def basenameChars (l : List Char) : List Char :=
  (l.reverse.takeWhile (fun c => c ≠ '/')).reverse

def pyBasename (s : String) : String := String.mk (basenameChars s.data)

/-- Root part of os.path.splitext: everything before the extension, where
the extension starts at the last dot unless all characters before that dot
are dots. -/
def splitextRootChars (l : List Char) : List Char :=
  let rev := l.reverse
  let extRev := rev.takeWhile (fun c => c ≠ '.')
  if extRev.length = rev.length then l
  else
    let rootRev := rev.drop (extRev.length + 1)
    if rootRev.all (fun c => c = '.') then l else rootRev.reverse

def pySplitextRoot (s : String) : String := String.mk (splitextRootChars s.data)

/-- os.path.join for a directory and a relative component. -/
def pathJoin (a b : String) : String := a ++ "/" ++ b

/-- A loaded video clip (moviepy VideoFileClip): a duration, a frame rate
and an abstract frame function standing for the pixel content. -/
structure VideoClip where
  duration : ℚ
  fps : ℚ
  frame : ℚ → Nat

/-- A moviepy TextClip together with the attributes the script sets. -/
structure TextClip where
  text : String
  font : String
  fontsize : Nat
  color : String
  pos : Option String
  duration : Option ℚ

def TextClip.make (text font : String) (fontsize : Nat) (color : String) : TextClip :=
  ⟨text, font, fontsize, color, none, none⟩

def TextClip.set_position (t : TextClip) (p : String) : TextClip := { t with pos := some p }

def TextClip.set_duration (t : TextClip) (d : ℚ) : TextClip := { t with duration := some d }

inductive Layer where
  | video (c : VideoClip)
  | text (t : TextClip)

def Layer.durOpt : Layer → Option ℚ
  | .video c => some c.duration
  | .text t => t.duration

/-- Duration of a CompositeVideoClip: the maximum of the layers' defined
durations. -/
def compositeDuration (ls : List Layer) : ℚ :=
  match ls.filterMap Layer.durOpt with
  | [] => 0
  | d :: ds => ds.foldl max d

structure CompositeClip where
  clips : List Layer
  duration : ℚ

def CompositeVideoClip (ls : List Layer) : CompositeClip :=
  ⟨ls, compositeDuration ls⟩

/-- add_subtitles: build a caption clip positioned at the bottom with the
input clip's duration, composite it over the video, and write the result
to edited_videos/<basename of the input path>.  Returns the composite and
the output path. -/
def add_subtitles (video : VideoClip) (video_path : String) (subtitle_text : String) :
    CompositeClip × String :=
  let txt_clip :=
    ((TextClip.make subtitle_text "Arial" 50 "white").set_position "bottom").set_duration
      video.duration
  let final := CompositeVideoClip [Layer.video video, Layer.text txt_clip]
  let output_path := pathJoin "edited_videos" (pyBasename video_path)
  (final, output_path)

def VideoClip.set_fps (c : VideoClip) (f : ℚ) : VideoClip := { c with fps := f }

/-- moviepy Clip.fx applies the given transformation to the clip. -/
def VideoClip.fx (c : VideoClip) (g : VideoClip → VideoClip) : VideoClip := g c

/-- enhance_video: raise the frame rate by the fixed factor 1.5 and write
the result to enhanced_videos/<basename of the input path>. -/
def enhance_video (video : VideoClip) (input_path : String) : VideoClip × String :=
  let enhanced := video.fx (fun clip => clip.set_fps (clip.fps * (3 / 2)))
  let output_path := pathJoin "enhanced_videos" (pyBasename input_path)
  (enhanced, output_path)

/-- create_thumbnail: video.get_frame(1) is modelled by its outcome; on
success the image is saved at thumbnails/<stem>.png, on failure the
exception propagates and no file is produced.  The second component lists
the files written. -/
def create_thumbnail (frameResult : Except String Nat) (video_path : String) :
    Except PyExn String × List String :=
  match frameResult with
  | .error e => (.error (.libError e), [])
  | .ok _ =>
    let thumbnail_path :=
      pathJoin "thumbnails" (pySplitextRoot (pyBasename video_path) ++ ".png")
    (.ok thumbnail_path, [thumbnail_path])

/-- Python values that evaluating the service response can produce. -/
inductive PyVal where
  | str (s : String)
  | int (n : Int)
  | list (xs : List PyVal)
  | dict (entries : List (String × PyVal))

def PyVal.isStr : PyVal → Bool
  | .str _ => true
  | _ => false

def PyVal.isDict : PyVal → Bool
  | .dict _ => true
  | _ => false

/-- Python seo_data.get(key, default): only dictionaries have a .get
method; on any other value the attribute access raises AttributeError. -/
def dictGet (v : PyVal) (key : String) (default : PyVal) : Except PyExn PyVal :=
  match v with
  | .dict entries =>
    match entries.lookup key with
    | some w => .ok w
    | none => .ok default
  | _ => .error (.attributeError "get")

/-- Outcome of the generative-service call and of eval on its text: the
API call itself may raise, and the returned text may fail to evaluate. -/
inductive SeoResponse where
  | apiFailure (msg : String)
  | content (evalResult : Except String PyVal)

def seoFallbackTitle (movie_name : String) : PyVal :=
  .str (movie_name ++ " Official Trailer")

def seoFallbackDescription (movie_name : String) : PyVal :=
  .str ("Watch the official trailer for " ++ movie_name ++ ".")

def seoFallbackTags (movie_name : String) : PyVal :=
  .list [.str movie_name, .str "movie trailer", .str "official trailer"]

def seoFallback (movie_name : String) : PyVal × PyVal × PyVal :=
  (seoFallbackTitle movie_name, seoFallbackDescription movie_name, seoFallbackTags movie_name)

/-- Body of generate_seo_content inside the outer try: the inner
try/except around eval returns the fallback directly, and the later field
accesses may raise. -/
def seoBody (movie_name : String) (resp : SeoResponse) :
    Except PyExn (PyVal × PyVal × PyVal) :=
  match resp with
  | .apiFailure e => .error (.apiError e)
  | .content (.error _) => .ok (seoFallback movie_name)
  | .content (.ok seo_data) =>
    match dictGet seo_data "title" (seoFallbackTitle movie_name) with
    | .error e => .error e
    | .ok title =>
      match dictGet seo_data "description" (seoFallbackDescription movie_name) with
      | .error e => .error e
      | .ok description =>
        match dictGet seo_data "tags" (seoFallbackTags movie_name) with
        | .error e => .error e
        | .ok tags => .ok (title, description, tags)

/-- generate_seo_content: the outer except catches every exception of the
body and substitutes the templated fallback, so the caller always gets a
normal return. -/
def generate_seo_content (movie_name : String) (resp : SeoResponse) :
    Except PyExn (PyVal × PyVal × PyVal) :=
  match seoBody movie_name resp with
  | .ok t => .ok t
  | .error _ => .ok (seoFallback movie_name)

/-- Fuel-driven splitter mirroring Python str.split with a non-empty
separator: scan left to right, cut at each non-overlapping occurrence. -/
def splitOnAux (sep : List Char) : Nat → List Char → List Char → List (List Char)
  | 0, l, acc => [acc.reverse ++ l]
  | _ + 1, [], acc => [acc.reverse]
  | fuel + 1, c :: cs, acc =>
    if sep.isPrefixOf (c :: cs) then
      acc.reverse :: splitOnAux sep fuel (cs.drop (sep.length - 1)) []
    else
      splitOnAux sep fuel cs (c :: acc)

def pySplit (l sep : List Char) : List (List Char) :=
  splitOnAux sep l.length l []

/-- Python substring containment (the in operator) for a non-empty
needle. -/
def containsSub (sep : List Char) : List Char → Bool
  | [] => sep.isEmpty
  | c :: cs => sep.isPrefixOf (c :: cs) || containsSub sep cs

/-- href.split with v= then with the ampersand, as in the YouTube
fallback: take what follows the first v= up to the next argument
separator. -/
def extractVideoId (href : String) : String :=
  let parts := pySplit href.data "v=".data
  let afterV := (parts.get? 1).getD []
  String.mk ((pySplit afterV "&".data).headD [])

/-- A fetched page: either requests.get raised, or a response carrying a
status code and its parsed content. -/
inductive Fetched (α : Type) where
  | raised (msg : String)
  | resp (status : Nat) (page : α)

/-- The search-page-media-row element, with its optional data-url
attribute (a missing attribute raises KeyError, which the enclosing try
catches). -/
structure RTRow where
  dataUrl : Option String

structure RTSearchPage where
  mediaRow : Option RTRow

/-- The trailer-player anchor on a movie page, with its optional href
attribute. -/
structure RTAnchor where
  href : Option String

structure RTMoviePage where
  trailerAnchor : Option RTAnchor

/-- Parsed YouTube results page: the href attributes of its anchors, in
document order. -/
structure YTPage where
  hrefs : List String

/-- Network oracle for get_trailer_url, keyed by the full request URL. -/
structure TrailerEnv where
  rtSearch : String → Fetched RTSearchPage
  rtMovie : String → Fetched RTMoviePage
  ytSearch : String → Fetched YTPage

/-- Outcome of the Rotten Tomatoes try block: an explicit return, or
falling through to the YouTube fallback (reached on a caught exception or
when the markup is missing). -/
inductive TryOut where
  | ret (r : Option String)
  | fall

def rtAttempt (env : TrailerEnv) (movie_name : String) : TryOut :=
  let search_url_rotten := "https://www.rottentomatoes.com/search?search=" ++ movie_name
  match env.rtSearch search_url_rotten with
  | .raised _ => .fall
  | .resp status page =>
    if status ≠ 200 then .ret none
    else
      match page.mediaRow with
      | none => .fall
      | some movie_result =>
        match movie_result.dataUrl with
        | none => .fall
        | some movie_url =>
          match env.rtMovie ("https://www.rottentomatoes.com" ++ movie_url) with
          | .raised _ => .fall
          | .resp status2 movie_page =>
            if status2 ≠ 200 then .ret none
            else
              match movie_page.trailerAnchor with
              | none => .fall
              | some trailer_div =>
                match trailer_div.href with
                | none => .fall
                | some trailer_url => .ret (some trailer_url)

/-- First anchor whose href contains /watch?v=, with the video id the
source extracts from it. -/
def firstWatchId : List String → Option String
  | [] => none
  | h :: rest =>
    if containsSub "/watch?v=".data h.data then some (extractVideoId h)
    else firstWatchId rest

/-- The YouTube fallback lookup (step 2 of get_trailer_url). -/
def ytLookup (env : TrailerEnv) (movie_name : String) : Option String :=
  let search_query := movie_name ++ " official trailer"
  let youtube_search_url := "https://www.youtube.com/results?search_query=" ++ search_query
  match env.ytSearch youtube_search_url with
  | .raised _ => none
  | .resp status page =>
    if status ≠ 200 then none
    else
      match firstWatchId page.hrefs with
      | none => none
      | some video_id =>
        if video_id = "" then none
        else some ("https://www.youtube.com/watch?v=" ++ video_id)

/-- get_trailer_url: try Rotten Tomatoes first; the YouTube fallback runs
exactly when the try block falls through. -/
def get_trailer_url (env : TrailerEnv) (movie_name : String) : Option String :=
  match rtAttempt env movie_name with
  | .ret r => r
  | .fall => ytLookup env movie_name

/-- Names bound by the import lines at the top of app.py. -/
def importedNames : List String :=
  ["st", "os", "requests", "BeautifulSoup", "YouTube", "VideoFileClip", "TextClip",
   "CompositeVideoClip", "Image", "ImageDraw", "ImageFont", "openai"]

/-- Module-level bindings defined by app.py itself. -/
def moduleBindings : List String :=
  ["openai_api_key", "get_trailer_url", "download_trailer", "add_subtitles",
   "enhance_video", "generate_seo_content", "create_thumbnail", "SCOPES",
   "authenticate_youtube", "upload_to_youtube", "movie_names"]

def moduleGlobals : List String := importedNames ++ moduleBindings

/-- Local names in scope inside upload_to_youtube at the point where
MediaFileUpload is resolved. -/
def uploadLocals : List String :=
  ["youtube", "video_path", "title", "description", "tags", "request_body"]

/-- upload_to_youtube: build the request body, then resolve the name
MediaFileUpload.  That name is neither a local, nor imported, nor defined
at module level, so Python raises NameError before the insert request is
issued.  The second component lists the media uploads performed. -/
def upload_to_youtube (insertResult : Except PyExn String) (video_path : String)
    (title description tags : PyVal) : Except PyExn String × List String :=
  let request_body : PyVal :=
    .dict [("snippet", .dict [("title", title), ("description", description), ("tags", tags)]),
           ("status", .dict [("privacyStatus", .str "public")])]
  if (uploadLocals ++ moduleGlobals).contains "MediaFileUpload" then
    match insertResult with
    | .error e => (.error e, [video_path])
    | .ok vid => (.ok vid, [video_path])
  else
    let _ := request_body
    (.error (.nameError "MediaFileUpload"), [])

/-- UI messages emitted by the per-item loop. -/
inductive Msg where
  | write (s : String)
  | errorMsg (s : String)
  | successMsg (s : String)
deriving DecidableEq

/-- How an item can finish without raising. -/
inductive ItemOk where
  | skipped
  | uploaded (vid : String)
deriving DecidableEq

/-- Observable outcome of processing one movie name: the loop-level UI
messages, the files written, and either a normal finish or the exception
that escapes to the outer handler. -/
structure ItemStep where
  msgs : List Msg
  writes : List String
  result : Except PyExn ItemOk

/-- Oracles for the external effects used by the pipeline (network pages,
pytube download, clip loading, video writing, the generative service, the
frame grab, the insert call, OAuth). -/
structure PipeEnv where
  net : TrailerEnv
  fetch : String → Except PyExn String
  load : String → VideoClip
  captionWrite : String → Except PyExn Unit
  enhanceWrite : String → Except PyExn Unit
  seo : String → SeoResponse
  frameAt : String → Except String Nat
  insertResult : Except PyExn String
  auth : Except PyExn Unit

/-- One iteration of the Process Movies loop.  The skip test mirrors the
falsiness test on the trailer URL; each later stage propagates its
exception.  The Generated SEO Content echo message is recorded without its
values. -/
def runItem (env : PipeEnv) (movie_name : String) : ItemStep :=
  let m0 := [Msg.write ("Processing movie: " ++ movie_name)]
  let skipStep : ItemStep :=
    ⟨m0 ++ [Msg.errorMsg ("No trailer found for " ++ movie_name ++ ". Skipping...")],
     [], .ok .skipped⟩
  match get_trailer_url env.net movie_name with
  | none => skipStep
  | some trailer_url =>
    if trailer_url = "" then skipStep
    else
      let m1 := m0 ++ [Msg.write ("Trailer URL: " ++ trailer_url),
                       Msg.write "Downloading trailer..."]
      match env.fetch trailer_url with
      | .error e => ⟨m1, [], .error e⟩
      | .ok downloaded_video =>
        let m2 := m1 ++ [Msg.successMsg ("Trailer downloaded: " ++ downloaded_video),
                         Msg.write "Adding subtitles..."]
        match env.captionWrite downloaded_video with
        | .error e => ⟨m2, [downloaded_video], .error e⟩
        | .ok _ =>
          let subtitled_video :=
            (add_subtitles (env.load downloaded_video) downloaded_video
              (movie_name ++ " Trailer")).2
          let m3 := m2 ++ [Msg.successMsg ("Subtitles added: " ++ subtitled_video),
                           Msg.write "Enhancing video quality..."]
          match env.enhanceWrite subtitled_video with
          | .error e => ⟨m3, [downloaded_video, subtitled_video], .error e⟩
          | .ok _ =>
            let enhanced_video := (enhance_video (env.load subtitled_video) subtitled_video).2
            let m4 := m3 ++ [Msg.successMsg ("Video enhanced: " ++ enhanced_video),
                             Msg.write "Generating SEO content..."]
            match generate_seo_content movie_name (env.seo movie_name) with
            | .error e => ⟨m4, [downloaded_video, subtitled_video, enhanced_video], .error e⟩
            | .ok (title, description, tags) =>
              let m5 := m4 ++ [Msg.write "Generated SEO Content",
                               Msg.write "Creating thumbnail..."]
              match create_thumbnail (env.frameAt enhanced_video) enhanced_video with
              | (.error e, _) =>
                ⟨m5, [downloaded_video, subtitled_video, enhanced_video], .error e⟩
              | (.ok thumbnail_path, _) =>
                let m6 := m5 ++ [Msg.successMsg ("Thumbnail created: " ++ thumbnail_path),
                                 Msg.write "Uploading to YouTube..."]
                let files := [downloaded_video, subtitled_video, enhanced_video, thumbnail_path]
                match upload_to_youtube env.insertResult enhanced_video title description tags with
                | (.error e, _) => ⟨m6, files, .error e⟩
                | (.ok vid, _) =>
                  ⟨m6 ++ [Msg.successMsg ("Uploaded to YouTube! Video ID: " ++ vid)],
                   files, .ok (.uploaded vid)⟩

/-- The Process Movies loop inside the outer try: items are processed in
order; the first escaping exception abandons the loop, so the remaining
titles are never reached.  Returns the accumulated messages, the finished
items and the escaping exception, if any. -/
def processBatch (env : PipeEnv) : List String → List Msg × List (String × ItemOk) × Option PyExn
  | [] => ([], [], none)
  | movie_name :: rest =>
    let step := runItem env movie_name
    match step.result with
    | .error e => (step.msgs, [], some e)
    | .ok o =>
      let r := processBatch env rest
      (step.msgs ++ r.1, (movie_name, o) :: r.2.1, r.2.2)

/-- Python str rendering of the modelled exceptions, used by the outer
error message. -/
def pyExnMsg : PyExn → String
  | .nameError n => "name '" ++ n ++ "' is not defined"
  | .attributeError a => "object has no attribute '" ++ a ++ "'"
  | .libError m => m
  | .apiError m => m

/-- The whole Process Movies handler: authenticate, run the loop, and
report any escaping exception as a single UI error message.  This single
broad handler is the only one around the loop. -/
def processMovies (env : PipeEnv) (titles : List String) :
    List Msg × List (String × ItemOk) × Option PyExn :=
  match env.auth with
  | .error e => ([Msg.errorMsg ("An error occurred: " ++ pyExnMsg e)], [], some e)
  | .ok _ =>
    let r := processBatch env titles
    match r.2.2 with
    | some e => (r.1 ++ [Msg.errorMsg ("An error occurred: " ++ pyExnMsg e)], r.2.1, some e)
    | none => (r.1, r.2.1, none)

/-- A flat file store mapping paths to the run that last wrote them. -/
abbrev Store := List (String × Nat)

/-- Writing a file replaces whatever was previously stored at its path. -/
def writeFile (s : Store) (p : String) (tag : Nat) : Store :=
  (p, tag) :: s.filter (fun e => e.1 ≠ p)

def writeAll (tag : Nat) (ps : List String) (s : Store) : Store :=
  ps.foldl (fun st p => writeFile st p tag) s

/-- Observation: does a metadata result carry a string in its title slot. -/
def firstIsString : Except PyExn (PyVal × PyVal × PyVal) → Bool
  | .ok (t, _, _) => t.isStr
  | .error _ => false

/-- Network oracle where the Rotten Tomatoes search answers with a non-200
status while a YouTube search would find a trailer. -/
def envRtDown : TrailerEnv :=
  { rtSearch := fun _ => .resp 404 ⟨none⟩
  , rtMovie := fun _ => .raised "unused"
  , ytSearch := fun _ => .resp 200 ⟨["/watch?v=dQw4w9WgXcQ"]⟩ }

/-- Network oracle where the Rotten Tomatoes request raises and YouTube
has a result. -/
def envRtRaise : TrailerEnv :=
  { rtSearch := fun _ => .raised "connection error"
  , rtMovie := fun _ => .raised "connection error"
  , ytSearch := fun _ => .resp 200 ⟨["/watch?v=abc123"]⟩ }

/-- Pipeline oracle where trailer resolution succeeds through the YouTube
fallback, every filesystem and media operation succeeds, and the
generative-service call raises. -/
def envFull : PipeEnv :=
  { net := { rtSearch := fun _ => .raised "connection error"
           , rtMovie := fun _ => .raised "connection error"
           , ytSearch := fun _ => .resp 200 ⟨["/watch?v=abc"]⟩ }
  , fetch := fun _ => .ok "downloads/Dune.mp4"
  , load := fun _ => ⟨120, 24, fun _ => 0⟩
  , captionWrite := fun _ => .ok ()
  , enhanceWrite := fun _ => .ok ()
  , seo := fun _ => .apiFailure "boom"
  , frameAt := fun _ => .ok 7
  , insertResult := .ok "vid123"
  , auth := .ok () }

/-- Pipeline oracle where neither source can resolve a trailer. -/
def envSkip : PipeEnv :=
  { net := { rtSearch := fun _ => .raised "connection error"
           , rtMovie := fun _ => .raised "connection error"
           , ytSearch := fun _ => .raised "connection error" }
  , fetch := fun _ => .error (.libError "unreachable")
  , load := fun _ => ⟨0, 0, fun _ => 0⟩
  , captionWrite := fun _ => .ok ()
  , enhanceWrite := fun _ => .ok ()
  , seo := fun _ => .content (.error "unreachable")
  , frameAt := fun _ => .ok 0
  , insertResult := .ok "vid"
  , auth := .ok () }


/-! ## Helper lemmas -/

/-- Python .get on a genuine dictionary never raises. -/
theorem dictGet_dict_ok (entries : List (String × PyVal)) (key : String) (d : PyVal) :
    ∃ w, dictGet (.dict entries) key d = .ok w := by
  cases h : entries.lookup key with
  | none => exact ⟨d, by simp [dictGet, h]⟩
  | some w => exact ⟨w, by simp [dictGet, h]⟩

/-- The outer except of generate_seo_content catches everything: the call
always returns normally. -/
theorem generate_seo_content_total (movie_name : String) (resp : SeoResponse) :
    ∃ t, generate_seo_content movie_name resp = .ok t := by
  cases resp with
  | apiFailure e => exact ⟨seoFallback movie_name, rfl⟩
  | content ev =>
    cases ev with
    | error e => exact ⟨seoFallback movie_name, rfl⟩
    | ok v =>
      cases v with
      | str s => exact ⟨seoFallback movie_name, rfl⟩
      | int n => exact ⟨seoFallback movie_name, rfl⟩
      | list xs => exact ⟨seoFallback movie_name, rfl⟩
      | dict entries =>
        obtain ⟨w1, hw1⟩ := dictGet_dict_ok entries "title" (seoFallbackTitle movie_name)
        obtain ⟨w2, hw2⟩ :=
          dictGet_dict_ok entries "description" (seoFallbackDescription movie_name)
        obtain ⟨w3, hw3⟩ := dictGet_dict_ok entries "tags" (seoFallbackTags movie_name)
        exact ⟨(w1, w2, w3), by simp [generate_seo_content, seoBody, hw1, hw2, hw3]⟩

/-- The missing import: MediaFileUpload is resolvable from no scope, so
every call of upload_to_youtube raises NameError with no upload done. -/
theorem upload_to_youtube_name_error (insertResult : Except PyExn String)
    (video_path : String) (title description tags : PyVal) :
    upload_to_youtube insertResult video_path title description tags
      = (.error (.nameError "MediaFileUpload"), []) := rfl

/-! ## Claim C4 -/

/-- Claim C4: for every movie title, when the generative service's response
is malformed (it cannot be evaluated into a dictionary, whether eval raises
or yields a non-dictionary value), generate_seo_content returns exactly the
deterministic templated fallback derived from the title. -/
theorem c4_seo_fallback_on_malformed (movie_name evalErr : String) (v : PyVal) :
    generate_seo_content movie_name (.content (.error evalErr)) = .ok (seoFallback movie_name)
    ∧ (v.isDict = false →
        generate_seo_content movie_name (.content (.ok v)) = .ok (seoFallback movie_name))
    ∧ seoFallback movie_name
        = (.str (movie_name ++ " Official Trailer"),
           .str ("Watch the official trailer for " ++ movie_name ++ "."),
           .list [.str movie_name, .str "movie trailer", .str "official trailer"]) := by
  refine ⟨rfl, ?_, rfl⟩
  intro h
  cases v with
  | str s => rfl
  | int n => rfl
  | list xs => rfl
  | dict entries => simp [PyVal.isDict] at h

/-- Witness: a response whose text evaluates to a bare string yields the
templated fallback for the title Dune. -/
theorem c4_seo_fallback_on_malformed_witness :
    generate_seo_content "Dune" (.content (.ok (.str "not a dict")))
      = .ok (seoFallback "Dune") :=
  (c4_seo_fallback_on_malformed "Dune" "" (.str "not a dict")).2.1 rfl

/-! ## Claim C6 -/

/-- Claim C6: the caption overlay produces a composite whose duration
equals the input clip's duration, because the text clip's duration is set
to the video's duration before compositing. -/
theorem c6_caption_duration (video : VideoClip) (video_path subtitle_text : String) :
    (add_subtitles video video_path subtitle_text).1.duration = video.duration
    ∧ ∃ tc : TextClip,
        (add_subtitles video video_path subtitle_text).1.clips
          = [Layer.video video, Layer.text tc]
        ∧ tc.duration = some video.duration := by
  refine ⟨?_, ⟨_, rfl, rfl⟩⟩
  simp [add_subtitles, CompositeVideoClip, compositeDuration, Layer.durOpt,
        TextClip.make, TextClip.set_position, TextClip.set_duration]

/-! ## Claim C9 -/

/-- Claim C9: the cosmetic enhancement multiplies the frame rate by the
fixed factor 1.5 and leaves the duration and the frame content of the clip
unchanged. -/
theorem c9_enhance_fps (video : VideoClip) (input_path : String) :
    (enhance_video video input_path).1.fps = video.fps * (3 / 2)
    ∧ (enhance_video video input_path).1.duration = video.duration
    ∧ (enhance_video video input_path).1.frame = video.frame :=
  ⟨rfl, rfl, rfl⟩

/-! ## Claim C10 -/

/-- Claim C10 (amended): generate_seo_content is total at its public
interface: for every title and every service response it returns a triple
and never propagates an exception; the components, however, are only
templated strings in the fallback cases and are otherwise whatever values
the response dictionary holds. -/
theorem c10_seo_total (movie_name : String) (resp : SeoResponse) :
    ∃ t, generate_seo_content movie_name resp = .ok t :=
  generate_seo_content_total movie_name resp

/-- Counterexample to claim C10 as stated: a response that evaluates to a
well-formed dictionary with an integer title makes generate_seo_content
return a triple whose first component is not a string. -/
theorem c10_counterexample :
    generate_seo_content "Dune" (.content (.ok (.dict [("title", .int 5)])))
      = .ok (.int 5, .str "Watch the official trailer for Dune.",
             .list [.str "Dune", .str "movie trailer", .str "official trailer"])
    ∧ firstIsString
        (generate_seo_content "Dune" (.content (.ok (.dict [("title", .int 5)]))))
      = false :=
  ⟨rfl, rfl⟩

/-! ## Claim C1 -/

/-- Counterexample to claim C1 as stated: when the primary Rotten Tomatoes
search answers with a non-200 status, get_trailer_url returns nothing
immediately even though the YouTube fallback would have found a trailer. -/
theorem c1_counterexample :
    get_trailer_url envRtDown "Dune" = none
    ∧ ytLookup envRtDown "Dune" = some "https://www.youtube.com/watch?v=dQw4w9WgXcQ" :=
  ⟨rfl, rfl⟩

/-- Claim C1 (amended): trailer resolution tries Rotten Tomatoes first and
falls back to the YouTube search when the primary attempt raises or its
markup is missing; but on a non-200 HTTP status of either Rotten Tomatoes
request it returns nothing without attempting the secondary source, and
when the primary attempt finds a trailer href it returns it. -/
theorem c1_fallback_policy (env : TrailerEnv) (movie_name : String) :
    (∀ e, env.rtSearch ("https://www.rottentomatoes.com/search?search=" ++ movie_name)
        = .raised e →
      get_trailer_url env movie_name = ytLookup env movie_name)
    ∧ (∀ st p, env.rtSearch ("https://www.rottentomatoes.com/search?search=" ++ movie_name)
        = .resp st p → st ≠ 200 →
      get_trailer_url env movie_name = none)
    ∧ (∀ p, env.rtSearch ("https://www.rottentomatoes.com/search?search=" ++ movie_name)
        = .resp 200 p → p.mediaRow = none →
      get_trailer_url env movie_name = ytLookup env movie_name)
    ∧ (∀ p row u e,
        env.rtSearch ("https://www.rottentomatoes.com/search?search=" ++ movie_name)
          = .resp 200 p →
        p.mediaRow = some row → row.dataUrl = some u →
        env.rtMovie ("https://www.rottentomatoes.com" ++ u) = .raised e →
      get_trailer_url env movie_name = ytLookup env movie_name)
    ∧ (∀ p row u st2 p2,
        env.rtSearch ("https://www.rottentomatoes.com/search?search=" ++ movie_name)
          = .resp 200 p →
        p.mediaRow = some row → row.dataUrl = some u →
        env.rtMovie ("https://www.rottentomatoes.com" ++ u) = .resp st2 p2 → st2 ≠ 200 →
      get_trailer_url env movie_name = none)
    ∧ (∀ p row u p2,
        env.rtSearch ("https://www.rottentomatoes.com/search?search=" ++ movie_name)
          = .resp 200 p →
        p.mediaRow = some row → row.dataUrl = some u →
        env.rtMovie ("https://www.rottentomatoes.com" ++ u) = .resp 200 p2 →
        p2.trailerAnchor = none →
      get_trailer_url env movie_name = ytLookup env movie_name)
    ∧ (∀ p row u p2 a h,
        env.rtSearch ("https://www.rottentomatoes.com/search?search=" ++ movie_name)
          = .resp 200 p →
        p.mediaRow = some row → row.dataUrl = some u →
        env.rtMovie ("https://www.rottentomatoes.com" ++ u) = .resp 200 p2 →
        p2.trailerAnchor = some a → a.href = some h →
      get_trailer_url env movie_name = some h) := by
  refine ⟨?_, ?_, ?_, ?_, ?_, ?_, ?_⟩
  · intro e h
    simp [get_trailer_url, rtAttempt, h]
  · intro st p h hst
    simp [get_trailer_url, rtAttempt, h, hst]
  · intro p h hrow
    simp [get_trailer_url, rtAttempt, h, hrow]
  · intro p row u e h hrow hurl hmov
    simp [get_trailer_url, rtAttempt, h, hrow, hurl, hmov]
  · intro p row u st2 p2 h hrow hurl hmov hst
    simp [get_trailer_url, rtAttempt, h, hrow, hurl, hmov, hst]
  · intro p row u p2 h hrow hurl hmov hanchor
    simp [get_trailer_url, rtAttempt, h, hrow, hurl, hmov, hanchor]
  · intro p row u p2 a hr h hrow hurl hmov hanchor hhref
    simp [get_trailer_url, rtAttempt, h, hrow, hurl, hmov, hanchor, hhref]

/-- Witness: the fallback clause at an environment where the primary
request raises, and the early-return clause at one answering 404. -/
theorem c1_fallback_policy_witness :
    get_trailer_url envRtRaise "Dune" = some "https://www.youtube.com/watch?v=abc123"
    ∧ get_trailer_url envRtDown "Dune" = none :=
  ⟨((c1_fallback_policy envRtRaise "Dune").1 "connection error" rfl).trans rfl,
   (c1_fallback_policy envRtDown "Dune").2.1 404 ⟨none⟩ rfl (by decide)⟩

/-! ## Loop helper lemmas -/

/-- An item whose iteration raises abandons the loop: no item result is
recorded and the exception escapes to the outer handler. -/
theorem processBatch_cons_error (env : PipeEnv) (movie_name : String) (rest : List String)
    (e : PyExn) (h : (runItem env movie_name).result = .error e) :
    processBatch env (movie_name :: rest) = ((runItem env movie_name).msgs, [], some e) := by
  simp [processBatch, h]

/-- An item that finishes normally is recorded and the loop continues with
the remaining titles. -/
theorem processBatch_cons_ok (env : PipeEnv) (movie_name : String) (rest : List String)
    (o : ItemOk) (h : (runItem env movie_name).result = .ok o) :
    processBatch env (movie_name :: rest)
      = ((runItem env movie_name).msgs ++ (processBatch env rest).1,
         (movie_name, o) :: (processBatch env rest).2.1,
         (processBatch env rest).2.2) := by
  simp [processBatch, h]

/-- A falsy trailer URL takes the skip branch: a skip message, no writes,
a normal finish. -/
theorem runItem_skip (env : PipeEnv) (movie_name : String)
    (h : get_trailer_url env.net movie_name = none) :
    runItem env movie_name
      = ⟨[Msg.write ("Processing movie: " ++ movie_name),
          Msg.errorMsg ("No trailer found for " ++ movie_name ++ ". Skipping...")],
         [], .ok .skipped⟩ := by
  simp [runItem, h]

/-- When all stages before publish succeed, the iteration runs through
metadata (whatever the service response), thumbnail and the publish call,
where the missing MediaFileUpload name raises. -/
theorem runItem_reaches_publish (env : PipeEnv) (movie_name url dl : String) (fr : Nat)
    (h1 : get_trailer_url env.net movie_name = some url)
    (h2 : url ≠ "")
    (h3 : env.fetch url = .ok dl)
    (h4 : env.captionWrite dl = .ok ())
    (h5 : env.enhanceWrite (pathJoin "edited_videos" (pyBasename dl)) = .ok ())
    (h6 : env.frameAt
        (pathJoin "enhanced_videos" (pyBasename (pathJoin "edited_videos" (pyBasename dl))))
      = .ok fr) :
    runItem env movie_name
      = ⟨[Msg.write ("Processing movie: " ++ movie_name),
          Msg.write ("Trailer URL: " ++ url),
          Msg.write "Downloading trailer...",
          Msg.successMsg ("Trailer downloaded: " ++ dl),
          Msg.write "Adding subtitles...",
          Msg.successMsg ("Subtitles added: " ++ pathJoin "edited_videos" (pyBasename dl)),
          Msg.write "Enhancing video quality...",
          Msg.successMsg ("Video enhanced: "
            ++ pathJoin "enhanced_videos" (pyBasename (pathJoin "edited_videos" (pyBasename dl)))),
          Msg.write "Generating SEO content...",
          Msg.write "Generated SEO Content",
          Msg.write "Creating thumbnail...",
          Msg.successMsg ("Thumbnail created: "
            ++ pathJoin "thumbnails"
                 (pySplitextRoot
                    (pyBasename
                      (pathJoin "enhanced_videos"
                        (pyBasename (pathJoin "edited_videos" (pyBasename dl))))) ++ ".png")),
          Msg.write "Uploading to YouTube..."],
         [dl,
          pathJoin "edited_videos" (pyBasename dl),
          pathJoin "enhanced_videos" (pyBasename (pathJoin "edited_videos" (pyBasename dl))),
          pathJoin "thumbnails"
            (pySplitextRoot
               (pyBasename
                 (pathJoin "enhanced_videos"
                   (pyBasename (pathJoin "edited_videos" (pyBasename dl))))) ++ ".png")],
         .error (.nameError "MediaFileUpload")⟩ := by
  obtain ⟨⟨t1, t2, t3⟩, hseo⟩ :=
    generate_seo_content_total movie_name (env.seo movie_name)
  simp [runItem, h1, h2, h3, h4, add_subtitles, enhance_video, h5, h6,
        create_thumbnail, hseo, upload_to_youtube_name_error]

/-! ## Claim C2 -/

/-- Claim C2: for a title with no resolvable trailer, the loop emits a
skip message for that title, invokes no further pipeline stage for it
(no files written, no stage messages), and continues with the remaining
titles without an exception. -/
theorem c2_skip_and_continue (env : PipeEnv) (movie_name : String) (rest : List String)
    (h : get_trailer_url env.net movie_name = none) :
    runItem env movie_name
      = ⟨[Msg.write ("Processing movie: " ++ movie_name),
          Msg.errorMsg ("No trailer found for " ++ movie_name ++ ". Skipping...")],
         [], .ok .skipped⟩
    ∧ processBatch env (movie_name :: rest)
      = ((runItem env movie_name).msgs ++ (processBatch env rest).1,
         (movie_name, ItemOk.skipped) :: (processBatch env rest).2.1,
         (processBatch env rest).2.2) := by
  have hs := runItem_skip env movie_name h
  exact ⟨hs, processBatch_cons_ok env movie_name rest .skipped (by rw [hs])⟩

/-- Witness: with both trailer sources unreachable the first title is
skipped with the skip message and the batch moves on to the second title,
which is skipped likewise, without any exception. -/
theorem c2_skip_and_continue_witness :
    runItem envSkip "UnknownMovieXYZ123"
      = ⟨[Msg.write "Processing movie: UnknownMovieXYZ123",
          Msg.errorMsg "No trailer found for UnknownMovieXYZ123. Skipping..."],
         [], .ok .skipped⟩
    ∧ processBatch envSkip ["UnknownMovieXYZ123", "Dune"]
      = ((runItem envSkip "UnknownMovieXYZ123").msgs
          ++ (processBatch envSkip ["Dune"]).1,
         ("UnknownMovieXYZ123", ItemOk.skipped) :: (processBatch envSkip ["Dune"]).2.1,
         (processBatch envSkip ["Dune"]).2.2) :=
  c2_skip_and_continue envSkip "UnknownMovieXYZ123" ["Dune"] rfl

/-! ## Claim C3 -/

/-- Claim C3: every call of the publish stage raises NameError over the
unresolvable name MediaFileUpload before performing any upload; hence no
item can finish with a platform identifier, and the first item that
reaches the publish stage terminates the batch through the outer
handler. -/
theorem c3_upload_name_error (env : PipeEnv) (movie_name url dl : String) (fr : Nat)
    (rest : List String)
    (h1 : get_trailer_url env.net movie_name = some url)
    (h2 : url ≠ "")
    (h3 : env.fetch url = .ok dl)
    (h4 : env.captionWrite dl = .ok ())
    (h5 : env.enhanceWrite (pathJoin "edited_videos" (pyBasename dl)) = .ok ())
    (h6 : env.frameAt
        (pathJoin "enhanced_videos" (pyBasename (pathJoin "edited_videos" (pyBasename dl))))
      = .ok fr) :
    (∀ (ins : Except PyExn String) (vp : String) (t d g : PyVal),
        upload_to_youtube ins vp t d g = (.error (.nameError "MediaFileUpload"), []))
    ∧ (∀ (env2 : PipeEnv) (name2 : String),
        (runItem env2 name2).result = .ok .skipped
        ∨ ∃ e, (runItem env2 name2).result = .error e)
    ∧ processBatch env (movie_name :: rest)
        = ((runItem env movie_name).msgs, [], some (.nameError "MediaFileUpload")) := by
  refine ⟨upload_to_youtube_name_error, ?_, ?_⟩
  · intro env2 name2
    cases hg : get_trailer_url env2.net name2 with
    | none => exact Or.inl (by simp [runItem, hg])
    | some u =>
      by_cases hu : u = ""
      · exact Or.inl (by simp [runItem, hg, hu])
      · cases hf : env2.fetch u with
        | error e => exact Or.inr ⟨e, by simp [runItem, hg, hu, hf]⟩
        | ok dl2 =>
          cases hc : env2.captionWrite dl2 with
          | error e => exact Or.inr ⟨e, by simp [runItem, hg, hu, hf, hc]⟩
          | ok u1 =>
            cases he : env2.enhanceWrite
                ((add_subtitles (env2.load dl2) dl2 (name2 ++ " Trailer")).2) with
            | error e => exact Or.inr ⟨e, by simp [runItem, hg, hu, hf, hc, he]⟩
            | ok u2 =>
              obtain ⟨⟨t1, t2, t3⟩, hseo⟩ :=
                generate_seo_content_total name2 (env2.seo name2)
              cases hfr : env2.frameAt
                  ((enhance_video
                      (env2.load ((add_subtitles (env2.load dl2) dl2 (name2 ++ " Trailer")).2))
                      ((add_subtitles (env2.load dl2) dl2 (name2 ++ " Trailer")).2)).2) with
              | error e =>
                exact Or.inr ⟨.libError e,
                  by simp [runItem, hg, hu, hf, hc, he, hseo, create_thumbnail, hfr]⟩
              | ok fr2 =>
                exact Or.inr ⟨.nameError "MediaFileUpload",
                  by simp [runItem, hg, hu, hf, hc, he, hseo, create_thumbnail, hfr,
                           upload_to_youtube_name_error]⟩
  · exact processBatch_cons_error env movie_name rest _
      (by rw [runItem_reaches_publish env movie_name url dl fr h1 h2 h3 h4 h5 h6])

/-- Witness: a concrete batch whose first title reaches the publish stage
ends there with the NameError; the second title is never processed. -/
theorem c3_upload_name_error_witness :
    processBatch envFull ["Dune", "Tenet"]
      = ((runItem envFull "Dune").msgs, [], some (.nameError "MediaFileUpload")) :=
  (c3_upload_name_error envFull "Dune" "https://www.youtube.com/watch?v=abc"
    "downloads/Dune.mp4" 7 ["Tenet"] rfl (by decide) rfl rfl rfl rfl).2.2

/-! ## Claim C5 -/

/-- Counterexample to claim C5 as stated: an exception in the metadata
stage (here the generative-service call raises) is caught inside
generate_seo_content, not by the outermost handler: the item continues
through the thumbnail and publish messages, and the exception the outer
handler finally gets is the publish NameError, not the metadata one. -/
theorem c5_counterexample :
    envFull.seo "Dune" = SeoResponse.apiFailure "boom"
    ∧ (runItem envFull "Dune").msgs
        = [Msg.write "Processing movie: Dune",
           Msg.write "Trailer URL: https://www.youtube.com/watch?v=abc",
           Msg.write "Downloading trailer...",
           Msg.successMsg "Trailer downloaded: downloads/Dune.mp4",
           Msg.write "Adding subtitles...",
           Msg.successMsg "Subtitles added: edited_videos/Dune.mp4",
           Msg.write "Enhancing video quality...",
           Msg.successMsg "Video enhanced: enhanced_videos/Dune.mp4",
           Msg.write "Generating SEO content...",
           Msg.write "Generated SEO Content",
           Msg.write "Creating thumbnail...",
           Msg.successMsg "Thumbnail created: thumbnails/Dune.png",
           Msg.write "Uploading to YouTube..."]
    ∧ (runItem envFull "Dune").result = .error (.nameError "MediaFileUpload") :=
  ⟨rfl, rfl, rfl⟩

/-- Claim C5 (amended): an exception raised in the fetch, caption,
enhance, thumbnail or publish stage escapes to the single outermost
handler, is reported as a UI error message, and terminates processing of
all remaining items; exceptions arising during metadata generation,
however, are caught inside generate_seo_content, and the item proceeds to
the thumbnail and publish stages regardless of the service response. -/
theorem c5_batch_failure_policy (env : PipeEnv) (movie_name : String) (rest : List String)
    (e : PyExn) :
    ((runItem env movie_name).result = .error e →
        processBatch env (movie_name :: rest) = ((runItem env movie_name).msgs, [], some e)
        ∧ (env.auth = .ok () →
            processMovies env (movie_name :: rest)
              = ((runItem env movie_name).msgs
                  ++ [Msg.errorMsg ("An error occurred: " ++ pyExnMsg e)], [], some e)))
    ∧ (∀ url dl fr, get_trailer_url env.net movie_name = some url → url ≠ "" →
        env.fetch url = .ok dl → env.captionWrite dl = .ok () →
        env.enhanceWrite (pathJoin "edited_videos" (pyBasename dl)) = .ok () →
        env.frameAt
            (pathJoin "enhanced_videos" (pyBasename (pathJoin "edited_videos" (pyBasename dl))))
          = .ok fr →
        Msg.write "Creating thumbnail..." ∈ (runItem env movie_name).msgs
        ∧ Msg.write "Uploading to YouTube..." ∈ (runItem env movie_name).msgs) := by
  constructor
  · intro hr
    have hb := processBatch_cons_error env movie_name rest e hr
    refine ⟨hb, ?_⟩
    intro ha
    simp [processMovies, ha, hb]
  · intro url dl fr h1 h2 h3 h4 h5 h6
    rw [runItem_reaches_publish env movie_name url dl fr h1 h2 h3 h4 h5 h6]
    constructor <;> simp

/-- Witness: a batch whose first item raises at publish stops there with
the UI error message; and with every pre-publish stage succeeding the item
reaches the thumbnail and publish messages whatever the service did. -/
theorem c5_batch_failure_policy_witness :
    processBatch envFull ["Arrival"]
      = ((runItem envFull "Arrival").msgs, [], some (.nameError "MediaFileUpload"))
    ∧ Msg.write "Creating thumbnail..." ∈ (runItem envFull "Arrival").msgs :=
  ⟨((c5_batch_failure_policy envFull "Arrival" [] (.nameError "MediaFileUpload")).1 rfl).1,
   ((c5_batch_failure_policy envFull "Arrival" [] (.nameError "MediaFileUpload")).2
      "https://www.youtube.com/watch?v=abc" "downloads/Dune.mp4" 7
      rfl (by decide) rfl rfl rfl rfl).1⟩

/-! ## Claim C7 -/

/-- Counterexample to claim C7 as stated: when the frame grab fails,
create_thumbnail does not return nothing; the exception propagates (and no
file is produced). -/
theorem c7_counterexample :
    create_thumbnail (.error "cannot read frame") "downloads/Dune.mp4"
      = (.error (.libError "cannot read frame"), []) := rfl

/-- Claim C7 (amended): the thumbnail stage produces an output image file
exactly when a frame can be read from the video; when no frame can be
read, no file is produced, but the failure propagates as an exception
rather than a plain empty return. -/
theorem c7_thumbnail_frame_policy (frameResult : Except String Nat) (video_path : String) :
    (∀ fr, frameResult = .ok fr →
        create_thumbnail frameResult video_path
          = (.ok (pathJoin "thumbnails" (pySplitextRoot (pyBasename video_path) ++ ".png")),
             [pathJoin "thumbnails" (pySplitextRoot (pyBasename video_path) ++ ".png")]))
    ∧ (∀ e, frameResult = .error e →
        create_thumbnail frameResult video_path = (.error (.libError e), [])) := by
  constructor
  · intro fr h
    subst h
    rfl
  · intro e h
    subst h
    rfl

/-- Witness: a readable frame yields exactly the PNG next to the video
stem; an unreadable one yields the propagated error and no file. -/
theorem c7_thumbnail_frame_policy_witness :
    create_thumbnail (.ok 7) "downloads/Dune.mp4"
      = (.ok "thumbnails/Dune.png", ["thumbnails/Dune.png"])
    ∧ create_thumbnail (.error "eof") "downloads/Dune.mp4"
      = (.error (.libError "eof"), []) :=
  ⟨(c7_thumbnail_frame_policy (.ok 7) "downloads/Dune.mp4").1 7 rfl,
   (c7_thumbnail_frame_policy (.error "eof") "downloads/Dune.mp4").2 "eof" rfl⟩

/-! ## Claim C8 -/

theorem writeAll_cons (tag : Nat) (p : String) (ps : List String) (s : Store) :
    writeAll tag (p :: ps) s = writeAll tag ps (writeFile s p tag) := rfl

/-- Every entry of the store after a run of writes either has a path among
the written ones or was already present. -/
theorem writeAll_mem (tag : Nat) :
    ∀ (ps : List String) (s : Store) (e : String × Nat),
      e ∈ writeAll tag ps s → e.1 ∈ ps ∨ e ∈ s := by
  intro ps
  induction ps with
  | nil => exact fun s e h => Or.inr h
  | cons p ps ih =>
    intro s e h
    rw [writeAll_cons] at h
    rcases ih (writeFile s p tag) e h with h1 | h1
    · exact Or.inl (List.mem_cons_of_mem _ h1)
    · rcases List.mem_cons.mp h1 with he | hf
      · exact Or.inl (by rw [he]; exact List.mem_cons_self _ _)
      · exact Or.inr (List.mem_of_mem_filter hf)

/-- Every entry whose path was written by the run carries the run's tag:
the run overwrote whatever was there before. -/
theorem writeAll_tag_of_mem (tag : Nat) :
    ∀ (ps : List String) (s : Store) (e : String × Nat),
      e ∈ writeAll tag ps s → e.1 ∈ ps → e.2 = tag := by
  intro ps
  induction ps with
  | nil => intro s e _ hp; cases hp
  | cons p ps ih =>
    intro s e h hp
    rw [writeAll_cons] at h
    by_cases hmem : e.1 ∈ ps
    · exact ih (writeFile s p tag) e h hmem
    · have hp1 : e.1 = p := by
        rcases List.mem_cons.mp hp with h1 | h1
        · exact h1
        · exact absurd h1 hmem
      rcases writeAll_mem tag ps (writeFile s p tag) e h with h1 | h1
      · exact absurd h1 hmem
      · rcases List.mem_cons.mp h1 with he | hf
        · rw [he]
        · have hne := List.of_mem_filter hf
          simp [hp1] at hne

/-- After a second run over the same paths no entry of the first run's tag
survives. -/
theorem writeAll_twice_filter (t1 t2 : Nat) (hne : t1 ≠ t2) (ps : List String) :
    (writeAll t2 ps (writeAll t1 ps [])).filter (fun e => e.2 == t1) = [] := by
  rw [List.filter_eq_nil_iff]
  intro e he
  have hp : e.1 ∈ ps := by
    rcases writeAll_mem t2 ps (writeAll t1 ps []) e he with h | h
    · exact h
    · rcases writeAll_mem t1 ps [] e h with h1 | h1
      · exact h1
      · cases h1
  have ht := writeAll_tag_of_mem t2 ps (writeAll t1 ps []) e he hp
  simp [ht]
  exact fun hx => hne (by rw [hx])

/-- Counterexample to claim C8 as stated: the output paths of a run are a
deterministic function of the downloaded file's basename, so a second run
on the same title writes the same four paths, and in the file store
nothing written by the first run survives the second. -/
theorem c8_counterexample :
    (runItem envFull "Dune").writes
      = ["downloads/Dune.mp4", "edited_videos/Dune.mp4", "enhanced_videos/Dune.mp4",
         "thumbnails/Dune.png"]
    ∧ writeAll 2 ((runItem envFull "Dune").writes)
        (writeAll 1 ((runItem envFull "Dune").writes) [])
      = [("thumbnails/Dune.png", 2), ("enhanced_videos/Dune.mp4", 2),
         ("edited_videos/Dune.mp4", 2), ("downloads/Dune.mp4", 2)] :=
  ⟨rfl, rfl⟩

/-- Claim C8 (amended): re-running the pipeline on the same title repeats
the same deterministic output paths, so the second run overwrites the
first run's downloaded, captioned, enhanced and thumbnail files instead of
producing an independent second set. -/
theorem c8_rerun_overwrites (env : PipeEnv) (movie_name : String) (t1 t2 : Nat)
    (hne : t1 ≠ t2) :
    (writeAll t2 ((runItem env movie_name).writes)
        (writeAll t1 ((runItem env movie_name).writes) [])).filter (fun e => e.2 == t1)
      = [] :=
  writeAll_twice_filter t1 t2 hne ((runItem env movie_name).writes)

/-- Witness: the two-run store over the concrete writes of a full run
holds no first-run entry. -/
theorem c8_rerun_overwrites_witness :
    (writeAll 2 ((runItem envFull "Dune").writes)
        (writeAll 1 ((runItem envFull "Dune").writes) [])).filter (fun e => e.2 == 1)
      = [] :=
  c8_rerun_overwrites envFull "Dune" 1 2 (by decide)
